import Mathlib

/-!
Verification of the TSL2591 example sketches (`tsl2591.cpp` and
`tsl2591_interrupt.cpp`) against their natural-language specification.

The two sketches drive an external Adafruit TSL2591 sensor driver.  The
in-repo logic is shallowly embedded here:

* `advancedRead` — the channel split and visible computation of
  `advancedRead` in both sketches (lines 84–88 resp. 117–121);
* `statusFlags` / `getStatusOp` — the status-byte interpretation of the
  in-repo `getStatus` wrapper of `tsl2591_interrupt.cpp`;
* `progStep` / `progRun` — the control flow of both `main` functions as a
  step function over phases that emits the sequence of collaborator calls;
* `DriverState` with `setGain`, `setTiming`, `getGain`, `clearInterrupt`,
  `registerInterrupt` — the external driver collaborator, modelled from the
  spec since the driver library is not part of this repository.

Machine integers are embedded as `Nat` (with explicit `% 2 ^ w`
truncation where the C code truncates) and the promoted `int` subtraction
`full - ir` inside `printf` as `Int` subtraction.
-/

/-- Truncation to `uint16_t`, as performed by the C assignments
`ir = lum >> 16` and `full = lum & 0xFFFF` in `advancedRead`. -/
def toUInt16nat (n : Nat) : Nat := n % 65536

/-- The values `advancedRead` produces for one combined reading: the two
`uint16_t` channel variables and the `Visible` argument of its `printf`.
`visible` is an `Int` because `full-ir` undergoes integer promotion to
`int` in C before the subtraction; no 16-bit truncation is applied to it. -/
structure AdvancedReadOut where
  ir : Nat
  full : Nat
  visible : Int
deriving DecidableEq, Repr

/-- Shallow embedding of `advancedRead` (identical in both sketches):
`lum` is the 32-bit combined value returned by the collaborator's
`getFullLuminosity`; the code computes `ir = lum >> 16`,
`full = lum & 0xFFFF` (both stored in `uint16_t`) and prints
`full-ir` via `%d`, which is the `int` difference after promotion. -/
def advancedRead (lum : Nat) : AdvancedReadOut :=
  let ir := toUInt16nat (lum >>> 16)
  let full := toUInt16nat (lum &&& 0xFFFF)
  { ir := ir, full := full, visible := (full : Int) - (ir : Int) }

/-- The recombination `(infrared << 16) | fullSpectrum` named by claim C9. -/
def recombine (ir full : Nat) : Nat := (ir <<< 16) ||| full

/-- Key arithmetic fact about the recombination: for a low half below
`2 ^ 16` the bitwise-or is an addition of disjoint parts. -/
lemma recombine_eq_mul_add (a b : Nat) (hb : b < 2 ^ 16) :
    recombine a b = 2 ^ 16 * a + b := by
  apply Nat.eq_of_testBit_eq
  intro j
  rw [recombine, Nat.testBit_or, Nat.testBit_shiftLeft, Nat.testBit_mul_pow_two_add a hb j]
  by_cases hj : j < 16
  · have h1 : ¬ (j ≥ 16) := by omega
    simp [hj, h1]
  · have h16 : (16 : Nat) ≤ j := by omega
    have hbj : b < 2 ^ j :=
      lt_of_lt_of_le hb (Nat.pow_le_pow_right (by norm_num) h16)
    simp [hj, h16, Nat.testBit_lt_two_pow hbj]

/-- `advancedRead` in closed arithmetic form. -/
lemma advancedRead_eq (lum : Nat) :
    advancedRead lum =
      { ir := lum / 2 ^ 16 % 2 ^ 16, full := lum % 2 ^ 16,
        visible := ((lum % 2 ^ 16 : Nat) : Int) - ((lum / 2 ^ 16 % 2 ^ 16 : Nat) : Int) } := by
  have hfull : lum &&& 0xFFFF = lum % 2 ^ 16 := by
    have h := Nat.and_pow_two_sub_one_eq_mod lum 16
    norm_num at h ⊢
    exact h
  have hmod : lum % 2 ^ 16 % 65536 = lum % 2 ^ 16 := by omega
  simp only [advancedRead, toUInt16nat, Nat.shiftRight_eq_div_pow, hfull, hmod]
  norm_num

/-- Claim C2: for every 32-bit combined value, `advancedRead` takes the
infrared component from the high 16 bits and the full-spectrum component
from the low 16 bits, and whenever `full ≥ ir` the visible value it
produces equals `full - ir`. -/
theorem advancedRead_split (lum : Nat) (h : lum < 2 ^ 32) :
    (advancedRead lum).ir = lum / 2 ^ 16 ∧
    (advancedRead lum).full = lum % 2 ^ 16 ∧
    ((advancedRead lum).ir ≤ (advancedRead lum).full →
      (advancedRead lum).visible =
        (((advancedRead lum).full - (advancedRead lum).ir : Nat) : Int)) := by
  rw [advancedRead_eq]
  have hdiv : lum / 2 ^ 16 % 2 ^ 16 = lum / 2 ^ 16 := by omega
  refine ⟨by rw [hdiv], rfl, ?_⟩
  intro hle
  simp only [hdiv] at hle ⊢
  omega

/-- Witness for C2 at the concrete combined value `0x0001_0005`. -/
theorem advancedRead_split_witness :
    (advancedRead 0x00010005).ir = 0x00010005 / 2 ^ 16 ∧
    (advancedRead 0x00010005).full = 0x00010005 % 2 ^ 16 ∧
    ((advancedRead 0x00010005).ir ≤ (advancedRead 0x00010005).full →
      (advancedRead 0x00010005).visible =
        (((advancedRead 0x00010005).full - (advancedRead 0x00010005).ir : Nat) : Int)) :=
  advancedRead_split 0x00010005 (by norm_num)

/-- Claim C9: the split is lossless — recombining the two halves as
`(ir <<< 16) ||| full` returns the original 32-bit value, and conversely
splitting a recombined pair of 16-bit values returns the pair, so the
decomposition is a bijection between 32-bit values and 16-bit pairs. -/
theorem advancedRead_lossless (lum : Nat) (h : lum < 2 ^ 32) :
    recombine (advancedRead lum).ir (advancedRead lum).full = lum ∧
    (∀ ir full : Nat, ir < 2 ^ 16 → full < 2 ^ 16 →
      (advancedRead (recombine ir full)).ir = ir ∧
      (advancedRead (recombine ir full)).full = full) := by
  constructor
  · rw [advancedRead_eq]
    dsimp only
    rw [recombine_eq_mul_add _ _ (by omega)]
    omega
  · intro ir full hir hfull
    rw [advancedRead_eq]
    rw [recombine_eq_mul_add _ _ hfull]
    constructor
    · show (2 ^ 16 * ir + full) / 2 ^ 16 % 2 ^ 16 = ir
      omega
    · show (2 ^ 16 * ir + full) % 2 ^ 16 = full
      omega

/-- Witness for C9 at the concrete combined value `0xDEAD_BEEF`. -/
theorem advancedRead_lossless_witness :
    recombine (advancedRead 0xDEADBEEF).ir (advancedRead 0xDEADBEEF).full = 0xDEADBEEF ∧
    (∀ ir full : Nat, ir < 2 ^ 16 → full < 2 ^ 16 →
      (advancedRead (recombine ir full)).ir = ir ∧
      (advancedRead (recombine ir full)).full = full) :=
  advancedRead_lossless 0xDEADBEEF (by norm_num)

/-- Claim C1 as stated is false on the code: at the combined value
`0x03E8_01F4` the channel split gives `ir = 1000` and `full = 500`, but the
visible value `advancedRead` produces is the promoted `int` difference
`500 - 1000 = -500`, not the 16-bit wraparound value `65036`. -/
theorem advancedRead_wrap_counterexample :
    (advancedRead 0x03E801F4).ir = 1000 ∧
    (advancedRead 0x03E801F4).full = 500 ∧
    (advancedRead 0x03E801F4).visible ≠ 65036 := by
  refine ⟨rfl, rfl, ?_⟩
  decide

/-- Claim C1 amended: at the combined value `0x03E8_01F4` the split gives
`ir = 1000` and `full = 500`, and the visible value produced is `-500`
(the `int` subtraction `500 - 1000` after integer promotion); its value
reduced modulo `2 ^ 16` is `65036`, the 16-bit wraparound pattern the
original claim named. -/
theorem advancedRead_wrap_amended :
    (advancedRead 0x03E801F4).ir = 1000 ∧
    (advancedRead 0x03E801F4).full = 500 ∧
    (advancedRead 0x03E801F4).visible = -500 ∧
    (advancedRead 0x03E801F4).visible % 65536 = 65036 := by
  refine ⟨rfl, rfl, by decide, by decide⟩

/-- The two status bits the in-repo `getStatus` wrapper observes
(`tsl2591_interrupt.cpp` lines 126–136). -/
structure StatusFlags where
  als : Bool
  noPersist : Bool
deriving DecidableEq, Repr

/-- Shallow embedding of the bit tests in the `getStatus` wrapper:
`x & 0x10` selects the ALS-interrupt flag and `x & 0x20` the
no-persist-interrupt flag of the status byte `x`. -/
def statusFlags (x : Nat) : StatusFlags :=
  { als := (x &&& 0x10) != 0, noPersist := (x &&& 0x20) != 0 }

/-- Masking with a power of two is nonzero exactly when that bit is set. -/
lemma and_two_pow_bne (x i : Nat) : ((x &&& 2 ^ i) != 0) = x.testBit i := by
  rw [Nat.and_two_pow]
  cases h : x.testBit i <;> simp

/-- Claim C5: for every status byte, the wrapper reports an ALS interrupt
iff bit 4 (mask `0x10`) is set and a no-persist interrupt iff bit 5
(mask `0x20`) is set; these are the only bits it observes — two bytes
agreeing on bits 4 and 5 yield identical flags — and each flag is a
function of its own bit alone. -/
theorem getStatus_bits (x : Nat) (hx : x < 256) :
    (statusFlags x).als = x.testBit 4 ∧
    (statusFlags x).noPersist = x.testBit 5 ∧
    (∀ y : Nat, y < 256 → x.testBit 4 = y.testBit 4 → x.testBit 5 = y.testBit 5 →
      statusFlags x = statusFlags y) := by
  have hals : ∀ z : Nat, (statusFlags z).als = z.testBit 4 := fun z => by
    have h := and_two_pow_bne z 4
    norm_num at h
    simpa [statusFlags] using h
  have hnp : ∀ z : Nat, (statusFlags z).noPersist = z.testBit 5 := fun z => by
    have h := and_two_pow_bne z 5
    norm_num at h
    simpa [statusFlags] using h
  refine ⟨hals x, hnp x, ?_⟩
  intro y _ h4 h5
  have e1 : (statusFlags x).als = (statusFlags y).als := by
    rw [hals, hals, h4]
  have e2 : (statusFlags x).noPersist = (statusFlags y).noPersist := by
    rw [hnp, hnp, h5]
  cases hsx : statusFlags x
  cases hsy : statusFlags y
  rw [hsx, hsy] at e1 e2
  simp_all

/-- Witness for C5 at the concrete status byte `0x31`. -/
theorem getStatus_bits_witness :
    (statusFlags 0x31).als = Nat.testBit 0x31 4 ∧
    (statusFlags 0x31).noPersist = Nat.testBit 0x31 5 ∧
    (∀ y : Nat, y < 256 → Nat.testBit 0x31 4 = y.testBit 4 →
      Nat.testBit 0x31 5 = y.testBit 5 → statusFlags 0x31 = statusFlags y) :=
  getStatus_bits 0x31 (by norm_num)

/-- Gain selections of the driver (`tsl2591Gain_t`). -/
inductive tsl2591Gain_t
  | TSL2591_GAIN_LOW
  | TSL2591_GAIN_MED
  | TSL2591_GAIN_HIGH
  | TSL2591_GAIN_MAX
deriving DecidableEq, Repr

/-- Integration-time selections of the driver (`tsl2591IntegrationTime_t`). -/
inductive tsl2591IntegrationTime_t
  | TSL2591_INTEGRATIONTIME_100MS
  | TSL2591_INTEGRATIONTIME_200MS
  | TSL2591_INTEGRATIONTIME_300MS
  | TSL2591_INTEGRATIONTIME_400MS
  | TSL2591_INTEGRATIONTIME_500MS
  | TSL2591_INTEGRATIONTIME_600MS
deriving DecidableEq, Repr

/-- Persistence selections referenced by the sketches (`tsl2591Persist_t`). -/
inductive tsl2591Persist_t
  | TSL2591_PERSIST_ANY
  | TSL2591_PERSIST_5
  | TSL2591_PERSIST_60
deriving DecidableEq, Repr

/-- The gain multiplier each selection stands for, as displayed by
`configureSensor`'s switch (1x, 25x, 428x, 9876x). -/
def gainMultiplier : tsl2591Gain_t → Nat
  | .TSL2591_GAIN_LOW => 1
  | .TSL2591_GAIN_MED => 25
  | .TSL2591_GAIN_HIGH => 428
  | .TSL2591_GAIN_MAX => 9876

/-- Modelled from the spec: the state of the external sensor-driver
collaborator (not part of this repository) — the configured gain and
integration time, the latched interrupt-status byte, and the programmed
interrupt window, per the spec's external-interface and data-model
sections. -/
structure DriverState where
  gain : tsl2591Gain_t
  timing : tsl2591IntegrationTime_t
  latched : Nat
  intConfig : Option (Nat × Nat × tsl2591Persist_t)
deriving DecidableEq, Repr

/-- Modelled from the spec: `setGain(enum)` stores the gain selection in
the device. -/
def setGain (g : tsl2591Gain_t) (s : DriverState) : DriverState := { s with gain := g }

/-- Modelled from the spec: `setTiming(enum)` stores the integration-time
selection in the device. -/
def setTiming (t : tsl2591IntegrationTime_t) (s : DriverState) : DriverState :=
  { s with timing := t }

/-- Modelled from the spec: `getGain()` reads back the configured gain. -/
def getGain (s : DriverState) : tsl2591Gain_t := s.gain

/-- Modelled from the spec: `clearInterrupt()` clears the latched
interrupt status at the device. -/
def clearInterrupt (s : DriverState) : DriverState := { s with latched := 0 }

/-- Modelled from the spec: `registerInterrupt(lower, upper, persistence)`
programs the window-threshold interrupt; the configuration persists until
rewritten. -/
def registerInterrupt (lo hi : Nat) (p : tsl2591Persist_t) (s : DriverState) : DriverState :=
  { s with intConfig := some (lo, hi, p) }

/-- Modelled from the spec: the driver's `getStatus()` returns the latched
interrupt status byte (reading alone does not clear it). -/
def getStatusByte (s : DriverState) : Nat := s.latched

/-- Modelled from the spec: `configure(gain, integrationTime)` of
SensorSession — in the sketches `configureSensor` performs exactly this
pair of driver calls with hard-coded selections, `setGain` first and
`setTiming` second. -/
def configure (g : tsl2591Gain_t) (t : tsl2591IntegrationTime_t) (s : DriverState) :
    DriverState :=
  setTiming t (setGain g s)

/-- Shallow embedding of the in-repo `getStatus` wrapper
(`tsl2591_interrupt.cpp` lines 125–138): read the latched status byte,
interpret bits 4 and 5, then clear the interrupt at the collaborator. -/
def getStatusOp (s : DriverState) : (Nat × StatusFlags) × DriverState :=
  ((getStatusByte s, statusFlags (getStatusByte s)), clearInterrupt s)

/-- Claim C4: the wrapper returns exactly the latched bit pattern and
clears it in the same step, so an immediate second call with no new
interrupt latched in between returns a zero status. -/
theorem getStatus_read_then_clear (s : DriverState) :
    (getStatusOp s).1.1 = s.latched ∧
    ((getStatusOp s).2).latched = 0 ∧
    (getStatusOp ((getStatusOp s).2)).1.1 = 0 :=
  ⟨rfl, rfl, rfl⟩

/-- Claim C6: for every valid gain selection (the four discrete
multipliers 1x, 25x, 428x, 9876x), `configure` with that gain followed by
a `getGain` query returns the gain just set. -/
theorem configure_then_getGain (g : tsl2591Gain_t) (t : tsl2591IntegrationTime_t)
    (s : DriverState) :
    getGain (configure g t s) = g ∧ gainMultiplier g ∈ ([1, 25, 428, 9876] : List Nat) := by
  refine ⟨rfl, ?_⟩
  cases g <;> simp [gainMultiplier]

/-- The collaborator calls the two `main` functions (and their helpers)
can make, in program order. -/
inductive Event
  | getID
  | setGain (g : tsl2591Gain_t)
  | setTiming (t : tsl2591IntegrationTime_t)
  | getGain
  | clearInterrupt
  | registerInterrupt (lo hi : Nat) (p : tsl2591Persist_t)
  | poll
  | readStatus
  | sleep (ms : Nat)
deriving DecidableEq, Repr

/-- Control phases of `main`: before the `begin` handshake, inside the
`while (1);` busy loop after a failed handshake, inside the steady-state
`while (true)` polling loop, and a return from `main` (which no phase
ever reaches — both loops are infinite). -/
inductive Phase
  | start
  | halted
  | run
  | done
deriving DecidableEq, Repr

/-- One step of `main`'s control flow: from `start` the handshake either
enters the polling loop (emitting the setup calls `cfg`) or the
`while (1);` halt loop; `halted` loops forever emitting nothing; `run`
repeats the loop body `body` forever. -/
def progStep (beginOk : Bool) (cfg body : List Event) : Phase → Phase × List Event
  | .start => if beginOk then (.run, cfg) else (.halted, [])
  | .halted => (.halted, [])
  | .run => (.run, body)
  | .done => (.done, [])

/-- `n` steps of `main`'s control flow from the initial phase, together
with the accumulated event trace. -/
def progRun (beginOk : Bool) (cfg body : List Event) : Nat → Phase × List Event
  | 0 => (.start, [])
  | n + 1 =>
    let prev := progRun beginOk cfg body n
    let st := progStep beginOk cfg body prev.1
    (st.1, prev.2 ++ st.2)

/-- `#define TLS2591_INT_THRESHOLD_LOWER (100)`. -/
def TLS2591_INT_THRESHOLD_LOWER : Nat := 100

/-- `#define TLS2591_INT_THRESHOLD_UPPER (1500)`. -/
def TLS2591_INT_THRESHOLD_UPPER : Nat := 1500

/-- `#define TLS2591_INT_PERSIST (TSL2591_PERSIST_60)`. -/
def TLS2591_INT_PERSIST : tsl2591Persist_t := .TSL2591_PERSIST_60

/-- Collaborator calls of `configureSensor` in `tsl2591.cpp`: gain 25x,
integration time 300 ms, then the display read-back of the gain. -/
def configureEvents : List Event :=
  [.setGain .TSL2591_GAIN_MED, .setTiming .TSL2591_INTEGRATIONTIME_300MS, .getGain]

/-- Collaborator calls of one iteration of `tsl2591.cpp`'s polling loop:
`advancedRead()` then `thread_sleep_for(500)`. -/
def loopEvents : List Event := [.poll, .sleep 500]

/-- Collaborator calls of the setup phase of `tsl2591_interrupt.cpp`
after a successful handshake: `getID`, then `configureSensor` (gain 25x,
integration time 100 ms, gain read-back, `clearInterrupt`, then
`registerInterrupt(100, 1500, TSL2591_PERSIST_60)`). -/
def setupEventsInt : List Event :=
  [.getID, .setGain .TSL2591_GAIN_MED, .setTiming .TSL2591_INTEGRATIONTIME_100MS, .getGain,
   .clearInterrupt,
   .registerInterrupt TLS2591_INT_THRESHOLD_LOWER TLS2591_INT_THRESHOLD_UPPER TLS2591_INT_PERSIST]

/-- Collaborator calls of one iteration of `tsl2591_interrupt.cpp`'s
polling loop: `advancedRead()`, `getStatus()` (a status read followed by
`clearInterrupt`), then `thread_sleep_for(500)`. -/
def loopEventsInt : List Event := [.poll, .readStatus, .clearInterrupt, .sleep 500]

/-- `main` of `tsl2591.cpp` after `n` steps. -/
def prog1Run (b : Bool) (n : Nat) : Phase × List Event :=
  progRun b configureEvents loopEvents n

/-- `main` of `tsl2591_interrupt.cpp` after `n` steps. -/
def prog2Run (b : Bool) (n : Nat) : Phase × List Event :=
  progRun b setupEventsInt loopEventsInt n

/-- After a failed handshake the program is in the halt loop with an
empty trace, at every step count. -/
lemma progRun_false (cfg body : List Event) (n : Nat) :
    progRun false cfg body (n + 1) = (.halted, []) := by
  induction n with
  | zero => rfl
  | succ n ih =>
    have hstep : progRun false cfg body (n + 1 + 1) =
        ((progStep false cfg body (progRun false cfg body (n + 1)).1).1,
         (progRun false cfg body (n + 1)).2 ++
           (progStep false cfg body (progRun false cfg body (n + 1)).1).2) := rfl
    rw [hstep, ih]
    rfl

/-- After a successful handshake the program is in the polling loop and
the trace is the setup calls followed by `n` copies of the loop body. -/
lemma progRun_true (cfg body : List Event) (n : Nat) :
    progRun true cfg body (n + 1) = (.run, cfg ++ (List.replicate n body).flatten) := by
  induction n with
  | zero => simp [progRun, progStep]
  | succ n ih =>
    have hstep : progRun true cfg body (n + 1 + 1) =
        ((progStep true cfg body (progRun true cfg body (n + 1)).1).1,
         (progRun true cfg body (n + 1)).2 ++
           (progStep true cfg body (progRun true cfg body (n + 1)).1).2) := rfl
    rw [hstep, ih]
    simp [progStep, List.replicate_succ', List.flatten_append, List.append_assoc]

/-- A member of a flattened replication is a member of the replicated
list. -/
lemma mem_flatten_replicate {α : Type} {x : α} {l : List α} {k : Nat}
    (h : x ∈ (List.replicate k l).flatten) : x ∈ l := by
  rcases List.mem_flatten.mp h with ⟨m, hm, hx⟩
  rwa [List.eq_of_mem_replicate hm] at hx

/-- Claim C3: if the handshake fails, both programs halt forever — at
every step count the phase after a failed `begin` is the halt loop, never
a return from `main`, and the emitted trace stays empty, so no
configuration call (`setGain`, `setTiming`, `registerInterrupt`) and no
poll is ever performed. -/
theorem begin_fail_halts (n : Nat) :
    (prog1Run false (n + 1)).1 = .halted ∧ (prog1Run false n).2 = [] ∧
    (prog1Run false n).1 ≠ .done ∧
    (prog2Run false (n + 1)).1 = .halted ∧ (prog2Run false n).2 = [] ∧
    (prog2Run false n).1 ≠ .done := by
  have h1 : ∀ cfg body : List Event, (progRun false cfg body n).2 = [] ∧
      (progRun false cfg body n).1 ≠ Phase.done := by
    intro cfg body
    cases n with
    | zero => exact ⟨rfl, by simp [progRun]⟩
    | succ m => rw [progRun_false]; exact ⟨rfl, by simp⟩
  refine ⟨?_, (h1 _ _).1, (h1 _ _).2, ?_, (h1 _ _).1, (h1 _ _).2⟩
  · rw [prog1Run, progRun_false]
  · rw [prog2Run, progRun_false]

/-- Claim C7: every `registerInterrupt` invocation the interrupt sketch
ever makes uses exactly the constant thresholds 100 and 1500, which
satisfy the precondition `lower < upper`; no violating pair is ever
passed to the collaborator. -/
theorem registerInterrupt_thresholds (b : Bool) (n : Nat) (lo hi : Nat)
    (p : tsl2591Persist_t) (h : Event.registerInterrupt lo hi p ∈ (prog2Run b n).2) :
    lo = TLS2591_INT_THRESHOLD_LOWER ∧ hi = TLS2591_INT_THRESHOLD_UPPER ∧ lo < hi := by
  cases b with
  | false =>
    cases n with
    | zero => simp [prog2Run, progRun] at h
    | succ m => rw [prog2Run, progRun_false] at h; simp at h
  | true =>
    cases n with
    | zero => simp [prog2Run, progRun] at h
    | succ m =>
      rw [prog2Run, progRun_true] at h
      rcases List.mem_append.mp h with hc | hl
      · simp [setupEventsInt, TLS2591_INT_THRESHOLD_LOWER, TLS2591_INT_THRESHOLD_UPPER,
          TLS2591_INT_PERSIST] at hc
        obtain ⟨h1, h2, -⟩ := hc
        subst h1
        subst h2
        exact ⟨rfl, rfl, by decide⟩
      · have := mem_flatten_replicate hl
        simp [loopEventsInt] at this

/-- Witness for C7: the invocation actually present in the trace after
the setup step satisfies the precondition. -/
theorem registerInterrupt_thresholds_witness :
    (100 : Nat) = TLS2591_INT_THRESHOLD_LOWER ∧
    (1500 : Nat) = TLS2591_INT_THRESHOLD_UPPER ∧ (100 : Nat) < 1500 :=
  registerInterrupt_thresholds true 1 100 1500 .TSL2591_PERSIST_60 (by decide)

/-- Selector for the events claim C8 speaks about: polls and sleeps. -/
def isPollOrSleep : Event → Bool
  | .poll => true
  | .sleep _ => true
  | _ => false

/-- Filtering distributes over a flattened replication. -/
lemma filter_flatten_replicate (p : Event → Bool) (body : List Event) (k : Nat) :
    ((List.replicate k body).flatten).filter p =
      (List.replicate k (body.filter p)).flatten := by
  induction k with
  | zero => rfl
  | succ k ih =>
    simp [List.replicate_succ, List.filter_append, ih]

/-- Claim C8: in the steady-state loop of both programs, the subsequence
of polls and delays is `poll, sleep 500` repeated — between any two
consecutive polls the program holds exactly one fixed 500 ms delay, the
same on every iteration. -/
theorem poll_delay_fixed_500 (n : Nat) :
    (prog1Run true (n + 1)).2.filter isPollOrSleep =
      (List.replicate n [Event.poll, Event.sleep 500]).flatten ∧
    (prog2Run true (n + 1)).2.filter isPollOrSleep =
      (List.replicate n [Event.poll, Event.sleep 500]).flatten := by
  constructor
  · rw [prog1Run, progRun_true]
    show (configureEvents ++ (List.replicate n loopEvents).flatten).filter isPollOrSleep = _
    rw [List.filter_append, filter_flatten_replicate]
    rfl
  · rw [prog2Run, progRun_true]
    show (setupEventsInt ++ (List.replicate n loopEventsInt).flatten).filter isPollOrSleep = _
    rw [List.filter_append, filter_flatten_replicate]
    rfl

/-- Selector for `registerInterrupt` events, whatever their arguments. -/
def isRegisterEvent : Event → Bool
  | .registerInterrupt _ _ _ => true
  | _ => false

/-- Claim C10: in the interrupt sketch, whenever a `registerInterrupt`
call appears in the trace, a `clearInterrupt` call appears strictly
before it — the device's previously latched interrupt status is cleared
before the interrupt is registered, whatever was latched before the
program started. -/
theorem clear_before_register (b : Bool) (n i : Nat) (h : i < (prog2Run b n).2.length)
    (hreg : isRegisterEvent ((prog2Run b n).2[i]) = true) :
    ∃ j, ∃ hj : j < (prog2Run b n).2.length, j < i ∧
      (prog2Run b n).2[j] = Event.clearInterrupt := by
  cases b with
  | false =>
    cases n with
    | zero => simp [prog2Run, progRun] at h
    | succ m => rw [prog2Run, progRun_false] at h; simp at h
  | true =>
    cases n with
    | zero => simp [prog2Run, progRun] at h
    | succ m =>
      simp only [prog2Run, progRun_true] at h hreg ⊢
      by_cases hi : i < setupEventsInt.length
      · rw [List.getElem_append_left hi] at hreg
        have h6 : setupEventsInt.length = 6 := rfl
        rw [h6] at hi
        have hlen : 5 < (setupEventsInt ++ (List.replicate m loopEventsInt).flatten).length := by
          rw [List.length_append, h6]; omega
        interval_cases i
        · exact absurd hreg (by simp [setupEventsInt, isRegisterEvent])
        · exact absurd hreg (by simp [setupEventsInt, isRegisterEvent])
        · exact absurd hreg (by simp [setupEventsInt, isRegisterEvent])
        · exact absurd hreg (by simp [setupEventsInt, isRegisterEvent])
        · exact absurd hreg (by simp [setupEventsInt, isRegisterEvent])
        · refine ⟨4, by omega, by omega, ?_⟩
          rw [List.getElem_append_left (by rw [h6]; omega)]
          rfl
      · have hge : setupEventsInt.length ≤ i := by omega
        rw [List.getElem_append_right hge] at hreg
        have hlt : i - setupEventsInt.length <
            ((List.replicate m loopEventsInt).flatten).length := by
          rw [List.length_append] at h
          omega
        have hbody := mem_flatten_replicate (List.getElem_mem hlt)
        have hfalse : isRegisterEvent
            ((List.replicate m loopEventsInt).flatten[i - setupEventsInt.length]) = false := by
          revert hbody
          generalize (List.replicate m loopEventsInt).flatten[i - setupEventsInt.length] = e
          intro hbody
          fin_cases hbody <;> rfl
        have hc := hreg.symm.trans hfalse
        simp at hc

/-- Witness for C10: in the trace after the setup step, the
`registerInterrupt` call at index 5 is preceded by a `clearInterrupt`. -/
theorem clear_before_register_witness :
    ∃ j, ∃ hj : j < (prog2Run true 1).2.length, j < 5 ∧
      (prog2Run true 1).2[j] = Event.clearInterrupt :=
  clear_before_register true 1 5 (by decide) (by decide)

/-- Witness for C3 at step count 2. -/
theorem begin_fail_halts_witness :
    (prog1Run false 3).1 = .halted ∧ (prog1Run false 2).2 = [] ∧
    (prog1Run false 2).1 ≠ .done ∧
    (prog2Run false 3).1 = .halted ∧ (prog2Run false 2).2 = [] ∧
    (prog2Run false 2).1 ≠ .done :=
  begin_fail_halts 2

/-- Witness for C8 at step count 3 (two loop iterations). -/
theorem poll_delay_fixed_500_witness :
    (prog1Run true 3).2.filter isPollOrSleep =
      (List.replicate 2 [Event.poll, Event.sleep 500]).flatten ∧
    (prog2Run true 3).2.filter isPollOrSleep =
      (List.replicate 2 [Event.poll, Event.sleep 500]).flatten :=
  poll_delay_fixed_500 2

/-- Witness for C4 at a device state with latched status `0x33`. -/
theorem getStatus_read_then_clear_witness :
    (getStatusOp ⟨.TSL2591_GAIN_LOW, .TSL2591_INTEGRATIONTIME_100MS, 0x33, none⟩).1.1 =
      (0x33 : Nat) ∧
    ((getStatusOp ⟨.TSL2591_GAIN_LOW, .TSL2591_INTEGRATIONTIME_100MS, 0x33, none⟩).2).latched =
      0 ∧
    (getStatusOp
      ((getStatusOp ⟨.TSL2591_GAIN_LOW, .TSL2591_INTEGRATIONTIME_100MS, 0x33, none⟩).2)).1.1 =
      0 :=
  getStatus_read_then_clear ⟨.TSL2591_GAIN_LOW, .TSL2591_INTEGRATIONTIME_100MS, 0x33, none⟩

/-- Witness for C6 with the high-gain selection. -/
theorem configure_then_getGain_witness :
    getGain (configure .TSL2591_GAIN_HIGH .TSL2591_INTEGRATIONTIME_200MS
      ⟨.TSL2591_GAIN_LOW, .TSL2591_INTEGRATIONTIME_100MS, 0, none⟩) = .TSL2591_GAIN_HIGH ∧
    gainMultiplier .TSL2591_GAIN_HIGH ∈ ([1, 25, 428, 9876] : List Nat) :=
  configure_then_getGain .TSL2591_GAIN_HIGH .TSL2591_INTEGRATIONTIME_200MS
    ⟨.TSL2591_GAIN_LOW, .TSL2591_INTEGRATIONTIME_100MS, 0, none⟩
